import Mathlib

/-!
Shallow embedding of the snake game engine
(`src/SnakeGameProject/core/game_engine.py`) and verification of the
frozen claims about it.  Python integers are modelled as `Int`,
wall-clock times (seconds, `time.time()`) and derived quantities such
as `duration` and `efficiency` as `ℚ`, and the pseudo-random candidate
stream that `random.randint` feeds into `place_food` as an explicit
function `Nat → Point`.  Fallible operations (Python `KeyError` /
`ValueError` paths) return `Option`.
-/

namespace SnakeGame

/-- String literal constants used throughout the embedding
(field names, menu strings, preset names). -/
def kInitialSpeed : String := "initial_speed"

def kDifficulty : String := "difficulty"

def kShowGrid : String := "show_grid"

def kSmoothAnimation : String := "smooth_animation"

def kSoundEffects : String := "sound_effects"

def kTheme : String := "theme"

def kFieldSize : String := "field_size"

def kTimerMode : String := "timer_mode"

def kAutoSpeedIncrease : String := "auto_speed_increase"

def kVibration : String := "vibration"

def kSmall : String := "Small"

def kMedium : String := "Medium"

def kLarge : String := "Large"

def kClassic : String := "Classic"

def kEasy : String := "Easy"

def kHard : String := "Hard"

def kExtreme : String := "Extreme"

def kAnon : String := "Аноним"

def kUp : String := "up"

def kDown : String := "down"

def kSelect : String := "select"

def kBack : String := "back"

/-- Python `Direction(Enum)`: four movement directions. -/
inductive Direction where
  | UP
  | DOWN
  | LEFT
  | RIGHT
deriving DecidableEq

/-- Python `Direction.value`: the unit `(Δy, Δx)` vector of a direction. -/
def Direction.value : Direction → Int × Int
  | .UP => (-1, 0)
  | .DOWN => (1, 0)
  | .LEFT => (0, -1)
  | .RIGHT => (0, 1)

/-- Python `GameState(Enum)`: the application states. -/
inductive GameState where
  | MENU
  | PLAYING
  | PAUSED
  | GAME_OVER
  | SETTINGS
  | HIGH_SCORES
  | NAME_INPUT
deriving DecidableEq

/-- Python `Point` dataclass: an immutable `(y, x)` grid coordinate. -/
structure Point where
  y : Int
  x : Int
deriving DecidableEq

/-- Python `Point.__add__`: translate a point by a direction's unit vector. -/
def Point.add (p : Point) (d : Direction) : Point :=
  Point.mk (p.y + d.value.1) (p.x + d.value.2)

/-- Python `FieldSize` dataclass (the `description` string is irrelevant to
all claims and omitted). -/
structure FieldSize where
  name : String
  width : Int
  height : Int
deriving DecidableEq

/-- Python module constant `FIELD_SIZES`: the preset name → field-size table,
modelled as an association list in the source's insertion order. -/
def FIELD_SIZES : List (String × FieldSize) :=
  [(kSmall, FieldSize.mk kSmall 15 10),
   (kMedium, FieldSize.mk kMedium 20 15),
   (kLarge, FieldSize.mk kLarge 30 20),
   (kClassic, FieldSize.mk kClassic 25 18)]

/-- Python `GameSettings` dataclass, with the source's default field values. -/
structure GameSettings where
  initial_speed : Int := 150
  difficulty : String := kMedium
  show_grid : Bool := true
  smooth_animation : Bool := true
  sound_effects : Bool := false
  theme : String := kClassic
  field_size : String := kMedium
  timer_mode : Bool := true
  auto_speed_increase : Bool := true
  vibration : Bool := true
deriving DecidableEq

/-- Primitive JSON-like values appearing in the persisted settings mapping
(the source stores ints, bools and strings). -/
inductive Value where
  | int (n : Int)
  | bool (b : Bool)
  | str (s : String)
deriving DecidableEq

/-- Python `GameSettings.to_dict` (via `dataclasses.asdict`): the record as a
field-name → value mapping, in field order. -/
def GameSettings.to_dict (s : GameSettings) : List (String × Value) :=
  [(kInitialSpeed, Value.int s.initial_speed),
   (kDifficulty, Value.str s.difficulty),
   (kShowGrid, Value.bool s.show_grid),
   (kSmoothAnimation, Value.bool s.smooth_animation),
   (kSoundEffects, Value.bool s.sound_effects),
   (kTheme, Value.str s.theme),
   (kFieldSize, Value.str s.field_size),
   (kTimerMode, Value.bool s.timer_mode),
   (kAutoSpeedIncrease, Value.bool s.auto_speed_increase),
   (kVibration, Value.bool s.vibration)]

/-- The names of the dataclass fields of `GameSettings`
(Python `cls.__dataclass_fields__`). -/
def knownFields : List String :=
  [kInitialSpeed, kDifficulty, kShowGrid, kSmoothAnimation, kSoundEffects,
   kTheme, kFieldSize, kTimerMode, kAutoSpeedIncrease, kVibration]

/-- Look up an `Int`-valued key, falling back to the field default when the
key is absent.  (The Python dataclass constructor would store an ill-typed
value verbatim; the embedding restricts attention to mappings of the
persisted schema, which is all the claims quantify over.) -/
def getInt (d : List (String × Value)) (k : String) (dflt : Int) : Int :=
  match List.lookup k d with
  | some (Value.int n) => n
  | _ => dflt

/-- Look up a `Bool`-valued key, falling back to the field default. -/
def getBool (d : List (String × Value)) (k : String) (dflt : Bool) : Bool :=
  match List.lookup k d with
  | some (Value.bool b) => b
  | _ => dflt

/-- Look up a `String`-valued key, falling back to the field default. -/
def getStr (d : List (String × Value)) (k : String) (dflt : String) : String :=
  match List.lookup k d with
  | some (Value.str v) => v
  | _ => dflt

/-- Python `GameSettings.from_dict`: keep only known dataclass fields of the
mapping and construct the record, defaulting every missing field. -/
def GameSettings.from_dict (d : List (String × Value)) : GameSettings :=
  { initial_speed := getInt d kInitialSpeed 150,
    difficulty := getStr d kDifficulty kMedium,
    show_grid := getBool d kShowGrid true,
    smooth_animation := getBool d kSmoothAnimation true,
    sound_effects := getBool d kSoundEffects false,
    theme := getStr d kTheme kClassic,
    field_size := getStr d kFieldSize kMedium,
    timer_mode := getBool d kTimerMode true,
    auto_speed_increase := getBool d kAutoSpeedIncrease true,
    vibration := getBool d kVibration true }

/-- Python `GameSession` dataclass: per-playthrough statistics. -/
structure GameSession where
  start_time : ℚ
  end_time : ℚ := 0
  score : Int := 0
  foods_eaten : Int := 0
  max_length : Int := 3
  field_size : String := kMedium
  difficulty : String := kMedium
  moves_made : Int := 0
  pauses_count : Int := 0
deriving DecidableEq

/-- Python `GameSession.duration`: `(end_time or time.time()) - start_time`;
a zero (falsy) `end_time` is replaced by the current time, which the
embedding passes explicitly as `now`. -/
def GameSession.duration (sess : GameSession) (now : ℚ) : ℚ :=
  (if sess.end_time = 0 then now else sess.end_time) - sess.start_time

/-- One persisted high-score entry, with the fields built by
`DataManager.add_score`. -/
structure ScoreEntry where
  score : Int
  name : String
  timestamp : String
  field_size : String
  difficulty : String
  duration : ℚ
  foods_eaten : Int
  moves_made : Int
  efficiency : ℚ
deriving DecidableEq

/-- Insert an entry into a list sorted descending by `score`, after every
element of greater-or-equal score (the stable position). -/
def insertDesc (e : ScoreEntry) : List ScoreEntry → List ScoreEntry
  | [] => [e]
  | x :: xs => if e.score ≤ x.score then x :: insertDesc e xs else e :: x :: xs

/-- Stable descending sort by `score`, modelling Python
`scores.sort(key=lambda x: x['score'], reverse=True)` (Python's sort is
stable: entries of equal score keep their original relative order, which
`insertDesc` reproduces by inserting after equals). -/
def sortDesc (l : List ScoreEntry) : List ScoreEntry :=
  l.foldl (fun acc e => insertDesc e acc) []

/-- The entry literal built inside Python `DataManager.add_score`:
a blank-after-strip name becomes the placeholder, `duration` comes from
the session, `efficiency = score / max(moves_made, 1)`. -/
def score_entry (score : Int) (name : String) (session : GameSession)
    (timestamp : String) (now : ℚ) : ScoreEntry :=
  { score := score,
    name := if name.trim = "" then kAnon else name.trim,
    timestamp := timestamp,
    field_size := session.field_size,
    difficulty := session.difficulty,
    duration := session.duration now,
    foods_eaten := session.foods_eaten,
    moves_made := session.moves_made,
    efficiency := (score : ℚ) / ((max session.moves_made 1 : Int) : ℚ) }

/-- Python `DataManager.add_score`: append the new entry to the previously
stored list, sort descending by score (stably), truncate to the top 50, and
return the result (the file write itself is an external effect). -/
def add_score (scores : List ScoreEntry) (score : Int) (name : String)
    (session : GameSession) (timestamp : String) (now : ℚ) : List ScoreEntry :=
  (sortDesc (scores ++ [score_entry score name session timestamp now])).take 50

/-- The loop body of Python `SnakeGameEngine.place_food`, with the attempt
counter made explicit: `fuel = 100 - attempts` candidates remain; the first
candidate not on the snake is returned, and when the fuel runs out the old
food position is returned (the Python loop exits without assigning
`self.food`). -/
def place_food_loop (snake : List Point) (old : Point) (rand : Nat → Point) :
    Nat → Nat → Point
  | _, 0 => old
  | attempts, fuel + 1 =>
    if rand attempts ∈ snake then place_food_loop snake old rand (attempts + 1) fuel
    else rand attempts

/-- Python `SnakeGameEngine.place_food`: up to 100 rejection-sampling
attempts drawn from the candidate stream `rand` (each Python iteration draws
one in-bounds `(randint, randint)` point); returns the new food position, or
the unchanged old one when every candidate collides with the snake. -/
def place_food (snake : List Point) (old : Point) (rand : Nat → Point) : Point :=
  place_food_loop snake old rand 0 100

/-- The mutable state of Python `SnakeGameEngine` (renderer / input-handler
handles and event callbacks are external collaborators and carry no state of
their own; the settings file managed by `DataManager.save_settings` is
modelled by the `stored_settings` field). -/
structure EngineState where
  state : GameState
  settings : GameSettings
  menu_index : Int
  settings_index : Int
  field_width : Int
  field_height : Int
  snake : List Point
  food : Point
  direction : Direction
  next_direction : Direction
  score : Int
  game_over : Bool
  paused : Bool
  player_name : String
  current_session : Option GameSession
  current_speed : Int
  last_update_time : ℚ
  last_speed_increase : ℚ
  foods_eaten : Int
  stored_settings : Option GameSettings
deriving DecidableEq

/-- The `opposite` mapping local to Python
`SnakeGameEngine.handle_direction_input`. -/
def opposite : Direction → Direction
  | .UP => .DOWN
  | .DOWN => .UP
  | .LEFT => .RIGHT
  | .RIGHT => .LEFT

/-- Python `SnakeGameEngine.handle_direction_input`: returns the boolean the
method returns together with the updated state.  Rejected (state untouched)
when paused or game over, or when the new direction is the exact opposite of
the currently applied `direction`; otherwise buffers it in
`next_direction`. -/
def handle_direction_input (s : EngineState) (new_direction : Direction) :
    Bool × EngineState :=
  if s.paused || s.game_over then (false, s)
  else if new_direction ≠ opposite s.direction then
    (true, { s with next_direction := new_direction })
  else (false, s)

/-- Python `SnakeGameEngine.reset_game`: recompute field dimensions from the
settings (`none` models the `KeyError` on an unknown preset name), spawn the
length-3 snake at the field centre facing RIGHT, clear the per-game fields,
place food from the candidate stream, and open a fresh session at `now`. -/
def reset_game (s : EngineState) (now : ℚ) (rand : Nat → Point) :
    Option EngineState :=
  match List.lookup s.settings.field_size FIELD_SIZES with
  | none => none
  | some fi =>
    let center_y := Int.fdiv fi.height 2
    let center_x := Int.fdiv fi.width 2
    let snake := [Point.mk center_y center_x,
                  Point.mk center_y (center_x - 1),
                  Point.mk center_y (center_x - 2)]
    let s1 := { s with
      field_width := fi.width,
      field_height := fi.height,
      snake := snake,
      direction := Direction.RIGHT,
      next_direction := Direction.RIGHT,
      score := 0,
      game_over := false,
      paused := false,
      foods_eaten := 0,
      current_speed := s.settings.initial_speed,
      last_speed_increase := 0 }
    let s2 := { s1 with food := place_food s1.snake s1.food rand }
    let sess : GameSession :=
      { start_time := now,
        field_size := s.settings.field_size,
        difficulty := s.settings.difficulty }
    some { s2 with current_session := some sess }

/-- The ordered difficulty names cycled by the settings menu. -/
def difficulties : List String := [kEasy, kMedium, kHard, kExtreme]

/-- The `speeds` mapping local to Python
`SnakeGameEngine.handle_settings_navigation`. -/
def speeds_lookup (d : String) : Option Int :=
  if d = kEasy then some 200
  else if d = kMedium then some 150
  else if d = kHard then some 100
  else if d = kExtreme then some 60
  else none

/-- Python `SnakeGameEngine.handle_settings_navigation`: cursor movement is
modulo the 9 menu items; `select` mutates the field bound to the cursor
(`none` models the `ValueError` a `list.index` miss would raise); item 8
persists the settings (modelled by `stored_settings`) and returns to the
menu; `back` returns to the menu without persisting. -/
def handle_settings_navigation (s : EngineState) (action : String) :
    Option EngineState :=
  if action = kUp then
    some { s with settings_index := (s.settings_index - 1) % 9 }
  else if action = kDown then
    some { s with settings_index := (s.settings_index + 1) % 9 }
  else if action = kSelect then
    if s.settings_index = 0 then
      match difficulties.findIdx? (fun d => d = s.settings.difficulty) with
      | none => none
      | some current =>
        let newDiff := (difficulties.drop ((current + 1) % difficulties.length)).headD kEasy
        match speeds_lookup newDiff with
        | none => none
        | some sp =>
          some { s with settings :=
            { s.settings with difficulty := newDiff, initial_speed := sp } }
    else if s.settings_index = 1 then
      let sizes := FIELD_SIZES.map Prod.fst
      match sizes.findIdx? (fun n => n = s.settings.field_size) with
      | none => none
      | some current =>
        let newSize := (sizes.drop ((current + 1) % sizes.length)).headD kSmall
        some { s with settings := { s.settings with field_size := newSize } }
    else if s.settings_index = 2 then
      some { s with settings := { s.settings with show_grid := !s.settings.show_grid } }
    else if s.settings_index = 3 then
      some { s with settings := { s.settings with smooth_animation := !s.settings.smooth_animation } }
    else if s.settings_index = 4 then
      some { s with settings := { s.settings with timer_mode := !s.settings.timer_mode } }
    else if s.settings_index = 5 then
      some { s with settings := { s.settings with auto_speed_increase := !s.settings.auto_speed_increase } }
    else if s.settings_index = 6 then
      some { s with settings := { s.settings with sound_effects := !s.settings.sound_effects } }
    else if s.settings_index = 7 then
      some { s with settings := { s.settings with vibration := !s.settings.vibration } }
    else if s.settings_index = 8 then
      some { s with stored_settings := some s.settings, state := GameState.MENU }
    else some s
  else if action = kBack then
    some { s with state := GameState.MENU }
  else some s

/-- The session-statistics block of Python
`SnakeGameEngine.update_game_logic` (runs after the rate-limit check):
count the move and, when timer mode and auto speed increase are on and 30
seconds of session time have elapsed since the last timed speed-up, drop the
interval by 10 ms with a 50 ms floor. -/
def tick_session (s : EngineState) (now : ℚ) : EngineState :=
  match s.current_session with
  | none => s
  | some sess =>
    let s1 := { s with current_session := some { sess with moves_made := sess.moves_made + 1 } }
    if s1.settings.timer_mode && s1.settings.auto_speed_increase &&
        decide (30 ≤ now - sess.start_time - s1.last_speed_increase) then
      { s1 with
        current_speed := max 50 (s1.current_speed - 10),
        last_speed_increase := now - sess.start_time }
    else s1

/-- The movement block of Python `SnakeGameEngine.update_game_logic`:
apply the buffered direction, compute the new head, terminate on a wall or
on the pre-move body, otherwise prepend the head and either consume the food
(score +10, food replaced from the stream, food-driven speed-up) or drop the
tail.  (Python indexes `self.snake[0]`, which presumes a non-empty snake;
`headD` supplies an arbitrary head for the empty case outside the engine's
reachable states.) -/
def tick_move (s : EngineState) (rand : Nat → Point) : EngineState :=
  let s3 := { s with direction := s.next_direction }
  let new_head := (s3.snake.headD (Point.mk 0 0)).add s3.direction
  if new_head.y < 0 ∨ s3.field_height ≤ new_head.y ∨
      new_head.x < 0 ∨ s3.field_width ≤ new_head.x then
    { s3 with game_over := true, state := GameState.NAME_INPUT }
  else if new_head ∈ s3.snake then
    { s3 with game_over := true, state := GameState.NAME_INPUT }
  else
    let s4 := { s3 with snake := new_head :: s3.snake }
    if new_head = s4.food then
      let s5 := { s4 with
        score := s4.score + 10,
        foods_eaten := s4.foods_eaten + 1,
        food := place_food s4.snake s4.food rand }
      if s5.settings.auto_speed_increase then
        { s5 with current_speed := max 40 (s5.current_speed - 3) }
      else s5
    else
      { s4 with snake := s4.snake.dropLast }

/-- Python `SnakeGameEngine.update_game_logic` (`tick`): no-op when game
over or paused, no-op when less than `current_speed` milliseconds have
elapsed since the last applied tick; otherwise record the tick time, update
the session statistics and perform the move. -/
def update_game_logic (s : EngineState) (now : ℚ) (rand : Nat → Point) :
    EngineState :=
  if s.game_over || s.paused then s
  else if now - s.last_update_time < (s.current_speed : ℚ) / 1000 then s
  else tick_move (tick_session { s with last_update_time := now } now) rand

/-- A degenerate candidate stream that always proposes the origin. -/
def randZero : Nat → Point := fun _ => Point.mk 0 0

/-- A candidate stream that always proposes the cell `(3, 3)`. -/
def randThree : Nat → Point := fun _ => Point.mk 3 3

/-- A concrete mid-game engine state used to instantiate the theorems:
playing, unpaused, default settings, 20×15 field, empty body fields. -/
def baseState : EngineState :=
  { state := GameState.PLAYING,
    settings := {},
    menu_index := 0,
    settings_index := 0,
    field_width := 20,
    field_height := 15,
    snake := [Point.mk 7 10, Point.mk 7 9, Point.mk 7 8],
    food := Point.mk 3 3,
    direction := Direction.RIGHT,
    next_direction := Direction.RIGHT,
    score := 0,
    game_over := false,
    paused := false,
    player_name := "",
    current_session := none,
    current_speed := 150,
    last_update_time := 0,
    last_speed_increase := 0,
    foods_eaten := 0,
    stored_settings := none }

/-- A state whose snake sits at the top edge with the buffered direction
pointing out of the field. -/
def wallState : EngineState :=
  { baseState with
    snake := [Point.mk 0 10, Point.mk 0 9, Point.mk 0 8],
    direction := Direction.UP,
    next_direction := Direction.UP }

/-- A state in which the food lies on a body cell that the head is about to
re-enter: the head `(0,0)` moving DOWN hits the tail cell `(1,0)`, which is
also the food. -/
def foodOnBodyState : EngineState :=
  { baseState with
    field_width := 5,
    field_height := 5,
    snake := [Point.mk 0 0, Point.mk 0 1, Point.mk 1 1, Point.mk 1 0],
    direction := Direction.DOWN,
    next_direction := Direction.DOWN,
    food := Point.mk 1 0 }

/-- A state one step away from the food cell `(7, 11)`. -/
def eatState : EngineState :=
  { baseState with food := Point.mk 7 11 }

/-- A concrete engine state whose settings select the Small 15×10 field. -/
def smallState : EngineState :=
  { baseState with settings := { field_size := kSmall } }

/-- A concrete finished game session used by the ledger examples. -/
def exSession : GameSession :=
  { start_time := 0, end_time := 5, moves_made := 4 }

/-- A concrete high-score entry with score 100. -/
def entry100 : ScoreEntry :=
  { score := 100,
    name := kMedium,
    timestamp := kClassic,
    field_size := kMedium,
    difficulty := kMedium,
    duration := 1,
    foods_eaten := 0,
    moves_made := 1,
    efficiency := 0 }

/-- A player-name literal used by the ledger examples. -/
def exName : String := "player one"

/-- A timestamp literal used by the ledger examples. -/
def exStamp : String := "2024-01-01 00:00:00"

/-- A mapping with a single unknown key, used to instantiate the settings
deserialization theorems. -/
def junkDict : List (String × Value) := [(kUp, Value.int 7)]

/-- `baseState` with the pause flag set. -/
def pausedState : EngineState := { baseState with paused := true }

/-- `baseState` with the game-over flag set. -/
def overState : EngineState := { baseState with game_over := true }

/-- The concrete state produced by resetting `smallState` at time 0 with the
all-zero candidate stream. -/
def resetSmall : EngineState := (reset_game smallState 0 randZero).getD baseState

/-! Theorems.  Each claim `Cn` of the specification is settled by the
theorem named `Cn_...`, with the helper lemmas it needs stated first.
The arithmetic of `ℚ` is made locally semireducible so that `decide` can
evaluate the embedded engine on concrete states. -/

attribute [local semireducible] Rat.sub Rat.mul Rat.add Rat.inv

theorem place_food_loop_congr (snake : List Point) (old : Point)
    (rand rand2 : Nat → Point) :
    ∀ (fuel attempts : Nat), attempts + fuel ≤ 100 →
    (∀ i, i < 100 → rand i = rand2 i) →
    place_food_loop snake old rand attempts fuel =
      place_food_loop snake old rand2 attempts fuel := by
  intro fuel
  induction fuel with
  | zero => intro attempts _ _; rfl
  | succ n ih =>
    intro attempts hle heq
    have ha : attempts < 100 := by omega
    unfold place_food_loop
    rw [heq attempts ha]
    split
    · exact ih (attempts + 1) (by omega) heq
    · rfl

theorem place_food_loop_exhaust (snake : List Point) (old : Point)
    (rand : Nat → Point) :
    ∀ (fuel attempts : Nat), attempts + fuel ≤ 100 →
    (∀ i, i < 100 → rand i ∈ snake) →
    place_food_loop snake old rand attempts fuel = old := by
  intro fuel
  induction fuel with
  | zero => intro attempts _ _; rfl
  | succ n ih =>
    intro attempts hle hmem
    have ha : attempts < 100 := by omega
    unfold place_food_loop
    rw [if_pos (hmem attempts ha)]
    exact ih (attempts + 1) (by omega) hmem

theorem place_food_loop_free (snake : List Point) (old : Point)
    (rand : Nat → Point) :
    ∀ (fuel attempts : Nat),
    (∃ i, attempts ≤ i ∧ i < attempts + fuel ∧ rand i ∉ snake) →
    place_food_loop snake old rand attempts fuel ∉ snake := by
  intro fuel
  induction fuel with
  | zero =>
    intro attempts h
    obtain ⟨i, h1, h2, _⟩ := h
    omega
  | succ n ih =>
    intro attempts h
    obtain ⟨i, h1, h2, h3⟩ := h
    unfold place_food_loop
    split
    · refine ih (attempts + 1) ⟨i, ?_, by omega, h3⟩
      rcases Nat.eq_or_lt_of_le h1 with heq | hlt
      · subst heq; exact absurd (by assumption) h3
      · omega
    · assumption

theorem place_food_free (snake : List Point) (old : Point)
    (rand : Nat → Point) (h : ∃ i, i < 100 ∧ rand i ∉ snake) :
    place_food snake old rand ∉ snake := by
  obtain ⟨i, h1, h2⟩ := h
  exact place_food_loop_free snake old rand 100 0 ⟨i, Nat.zero_le i, by omega, h2⟩

/-- C2, corrected.  `place_food` terminates within 100 rejection-sampling
attempts: its result depends only on the first 100 candidates of the
stream.  But when every one of the 100 candidates is occupied by the snake,
the food position is left unchanged — the last candidate is NOT accepted
(see `C2_cex`). -/
theorem C2_place_food_bounded :
    (∀ (snake : List Point) (old : Point) (rand rand2 : Nat → Point),
      (∀ i, i < 100 → rand i = rand2 i) →
      place_food snake old rand = place_food snake old rand2) ∧
    (∀ (snake : List Point) (old : Point) (rand : Nat → Point),
      (∀ i, i < 100 → rand i ∈ snake) →
      place_food snake old rand = old) := by
  constructor
  · intro snake old rand rand2 h
    exact place_food_loop_congr snake old rand rand2 100 0 (by omega) h
  · intro snake old rand h
    exact place_food_loop_exhaust snake old rand 100 0 (by omega) h

/-- C2 counterexample: with the snake occupying `(0,0)` and a stream that
proposes `(0,0)` on all 100 attempts, every attempt collides, yet the food
stays at the old position `(5,5)` instead of becoming the last candidate
`(0,0)` as the claim states. -/
theorem C2_cex :
    (List.range 100).all (fun i => decide (randZero i ∈ [Point.mk 0 0])) = true ∧
    place_food [Point.mk 0 0] (Point.mk 5 5) randZero = Point.mk 5 5 ∧
    ¬ place_food [Point.mk 0 0] (Point.mk 5 5) randZero = Point.mk 0 0 := by
  decide

/-- Witness for `C2_place_food_bounded` at a concrete exhausted stream. -/
theorem C2_witness :
    place_food [Point.mk 0 0] (Point.mk 5 5) randZero = Point.mk 5 5 :=
  C2_place_food_bounded.2 [Point.mk 0 0] (Point.mk 5 5) randZero
    (fun i _ => by simp [randZero])

/-- The descending-by-score order maintained by the ledger. -/
def scoreOrder (a b : ScoreEntry) : Prop := b.score ≤ a.score

theorem mem_insertDesc {b e : ScoreEntry} :
    ∀ {l : List ScoreEntry}, b ∈ insertDesc e l ↔ b = e ∨ b ∈ l := by
  intro l
  induction l with
  | nil => simp [insertDesc]
  | cons x xs ih =>
    unfold insertDesc
    split
    · simp only [List.mem_cons, ih]
      tauto
    · simp only [List.mem_cons]

theorem length_insertDesc (e : ScoreEntry) :
    ∀ l : List ScoreEntry, (insertDesc e l).length = l.length + 1 := by
  intro l
  induction l with
  | nil => rfl
  | cons x xs ih =>
    unfold insertDesc
    split
    · simp [ih]
    · simp

theorem insertDesc_sorted (e : ScoreEntry) : ∀ l : List ScoreEntry,
    l.Pairwise scoreOrder → (insertDesc e l).Pairwise scoreOrder := by
  intro l
  induction l with
  | nil => intro _; simp [insertDesc, scoreOrder]
  | cons x xs ih =>
    intro h
    rw [List.pairwise_cons] at h
    obtain ⟨hx, hxs⟩ := h
    unfold insertDesc
    split
    · rename_i hc
      rw [List.pairwise_cons]
      refine ⟨?_, ih hxs⟩
      intro b hb
      rcases mem_insertDesc.mp hb with rfl | hbxs
      · exact hc
      · exact hx b hbxs
    · rename_i hc
      rw [not_le] at hc
      rw [List.pairwise_cons]
      constructor
      · intro b hb
        rcases List.mem_cons.mp hb with rfl | hbxs
        · exact le_of_lt hc
        · exact le_trans (hx b hbxs) (le_of_lt hc)
      · exact List.pairwise_cons.mpr ⟨hx, hxs⟩

theorem sortDesc_go_sorted : ∀ (l acc : List ScoreEntry),
    acc.Pairwise scoreOrder →
    (l.foldl (fun acc e => insertDesc e acc) acc).Pairwise scoreOrder := by
  intro l
  induction l with
  | nil => intro acc h; exact h
  | cons x xs ih => intro acc h; exact ih _ (insertDesc_sorted x acc h)

theorem sortDesc_sorted (l : List ScoreEntry) :
    (sortDesc l).Pairwise scoreOrder :=
  sortDesc_go_sorted l [] List.Pairwise.nil

theorem sortDesc_go_mem (b : ScoreEntry) : ∀ (l acc : List ScoreEntry),
    b ∈ l.foldl (fun acc e => insertDesc e acc) acc ↔ b ∈ acc ∨ b ∈ l := by
  intro l
  induction l with
  | nil => simp
  | cons x xs ih =>
    intro acc
    rw [List.foldl_cons, ih, mem_insertDesc]
    simp only [List.mem_cons]
    tauto

theorem mem_sortDesc {b : ScoreEntry} {l : List ScoreEntry} :
    b ∈ sortDesc l ↔ b ∈ l := by
  rw [sortDesc, sortDesc_go_mem]
  simp

theorem sortDesc_go_length : ∀ (l acc : List ScoreEntry),
    (l.foldl (fun acc e => insertDesc e acc) acc).length =
      acc.length + l.length := by
  intro l
  induction l with
  | nil => simp
  | cons x xs ih =>
    intro acc
    rw [List.foldl_cons, ih, length_insertDesc]
    simp only [List.length_cons]
    omega

theorem length_sortDesc (l : List ScoreEntry) :
    (sortDesc l).length = l.length := by
  rw [sortDesc, sortDesc_go_length]
  simp

/-- C6, corrected.  After every insertion the returned ledger is sorted
descending by score and holds at most 50 entries, and the newly built entry
carries the placeholder name exactly when the given name is blank after
trimming; the new entry is guaranteed to be contained in the result when
fewer than 50 entries were stored before (with 50 stored entries all
outranking it, truncation drops it — see `C6_cex`). -/
theorem C6_ledger : ∀ (scores : List ScoreEntry) (sc : Int) (name : String)
    (sess : GameSession) (ts : String) (now : ℚ),
    (add_score scores sc name sess ts now).Pairwise scoreOrder ∧
    (add_score scores sc name sess ts now).length ≤ 50 ∧
    (score_entry sc name sess ts now).name =
      (if name.trim = "" then kAnon else name.trim) ∧
    (scores.length < 50 →
      score_entry sc name sess ts now ∈ add_score scores sc name sess ts now) := by
  intro scores sc name sess ts now
  refine ⟨?_, ?_, rfl, ?_⟩
  · exact List.Pairwise.sublist (List.take_sublist 50 _) (sortDesc_sorted _)
  · rw [add_score, List.length_take]
    exact min_le_left 50 _
  · intro h
    rw [add_score, List.take_of_length_le]
    · exact mem_sortDesc.mpr (by simp)
    · rw [length_sortDesc, List.length_append]
      simp only [List.length_singleton]
      omega

/-- C6 counterexample: with 50 stored entries of score 100, inserting an
entry of score 0 returns a ledger that does not contain the new entry,
refuting the unconditional containment stated by the claim. -/
theorem C6_cex :
    (List.replicate 50 entry100).length = 50 ∧
    score_entry 0 exName exSession exStamp 9 ∉
      add_score (List.replicate 50 entry100) 0 exName exSession exStamp 9 := by
  decide

/-- Witness for `C6_ledger`: inserting into an empty ledger keeps the new
entry. -/
theorem C6_witness :
    ([] : List ScoreEntry).length < 50 ∧
    score_entry 30 exName exSession exStamp 9 ∈
      add_score [] 30 exName exSession exStamp 9 :=
  ⟨by decide, (C6_ledger [] 30 exName exSession exStamp 9).2.2.2 (by decide)⟩

theorem lookup_filter_known (k : String) (hk : k ∈ knownFields) :
    ∀ d : List (String × Value),
    List.lookup k (d.filter (fun kv => decide (kv.1 ∈ knownFields))) =
      List.lookup k d := by
  intro d
  induction d with
  | nil => rfl
  | cons p t ih =>
    obtain ⟨k1, v1⟩ := p
    rw [List.filter_cons]
    by_cases h : k = k1
    · subst h
      rw [if_pos (by simpa using hk)]
      simp [List.lookup]
    · have hb : (k == k1) = false := by simp [h]
      by_cases hc : k1 ∈ knownFields
      · rw [if_pos (by simpa using hc)]
        simp [List.lookup, hb, ih]
      · rw [if_neg (by simpa using hc)]
        simp [List.lookup, hb, ih]

/-- C7, confirmed.  Deserializing the serialization of any settings record
reproduces it; deserialization ignores keys that are not settings fields
(filtering them away does not change the result); and every field whose key
is missing from the mapping gets its default value, the result always being
a well-formed record. -/
theorem C7_settings_roundtrip :
    (∀ s : GameSettings, GameSettings.from_dict (GameSettings.to_dict s) = s) ∧
    (∀ d : List (String × Value),
      GameSettings.from_dict d =
        GameSettings.from_dict (d.filter (fun kv => decide (kv.1 ∈ knownFields)))) ∧
    (∀ d : List (String × Value),
      (List.lookup kInitialSpeed d = none →
        (GameSettings.from_dict d).initial_speed = 150) ∧
      (List.lookup kDifficulty d = none →
        (GameSettings.from_dict d).difficulty = kMedium) ∧
      (List.lookup kShowGrid d = none →
        (GameSettings.from_dict d).show_grid = true) ∧
      (List.lookup kSmoothAnimation d = none →
        (GameSettings.from_dict d).smooth_animation = true) ∧
      (List.lookup kSoundEffects d = none →
        (GameSettings.from_dict d).sound_effects = false) ∧
      (List.lookup kTheme d = none →
        (GameSettings.from_dict d).theme = kClassic) ∧
      (List.lookup kFieldSize d = none →
        (GameSettings.from_dict d).field_size = kMedium) ∧
      (List.lookup kTimerMode d = none →
        (GameSettings.from_dict d).timer_mode = true) ∧
      (List.lookup kAutoSpeedIncrease d = none →
        (GameSettings.from_dict d).auto_speed_increase = true) ∧
      (List.lookup kVibration d = none →
        (GameSettings.from_dict d).vibration = true)) := by
  refine ⟨?_, ?_, ?_⟩
  · intro s
    rfl
  · intro d
    simp only [GameSettings.from_dict, getInt, getStr, getBool]
    rw [lookup_filter_known kInitialSpeed (by decide) d,
        lookup_filter_known kDifficulty (by decide) d,
        lookup_filter_known kShowGrid (by decide) d,
        lookup_filter_known kSmoothAnimation (by decide) d,
        lookup_filter_known kSoundEffects (by decide) d,
        lookup_filter_known kTheme (by decide) d,
        lookup_filter_known kFieldSize (by decide) d,
        lookup_filter_known kTimerMode (by decide) d,
        lookup_filter_known kAutoSpeedIncrease (by decide) d,
        lookup_filter_known kVibration (by decide) d]
  · intro d
    refine ⟨?_, ?_, ?_, ?_, ?_, ?_, ?_, ?_, ?_, ?_⟩ <;>
      intro h <;>
      simp [GameSettings.from_dict, getInt, getStr, getBool, h]

/-- Witness for `C7_settings_roundtrip`: the default record round-trips, and
a mapping holding only an unknown key deserializes to all defaults. -/
theorem C7_witness :
    GameSettings.from_dict (GameSettings.to_dict {}) = ({} : GameSettings) ∧
    (GameSettings.from_dict junkDict).initial_speed = 150 ∧
    (GameSettings.from_dict junkDict).difficulty = kMedium ∧
    (GameSettings.from_dict junkDict).theme = kClassic ∧
    (GameSettings.from_dict junkDict).field_size = kMedium ∧
    (GameSettings.from_dict junkDict).show_grid = true ∧
    (GameSettings.from_dict junkDict).smooth_animation = true ∧
    (GameSettings.from_dict junkDict).sound_effects = false ∧
    (GameSettings.from_dict junkDict).timer_mode = true ∧
    (GameSettings.from_dict junkDict).auto_speed_increase = true ∧
    (GameSettings.from_dict junkDict).vibration = true :=
  ⟨C7_settings_roundtrip.1 {},
   (C7_settings_roundtrip.2.2 junkDict).1 (by decide),
   (C7_settings_roundtrip.2.2 junkDict).2.1 (by decide),
   (C7_settings_roundtrip.2.2 junkDict).2.2.2.2.2.1 (by decide),
   (C7_settings_roundtrip.2.2 junkDict).2.2.2.2.2.2.1 (by decide),
   (C7_settings_roundtrip.2.2 junkDict).2.2.1 (by decide),
   (C7_settings_roundtrip.2.2 junkDict).2.2.2.1 (by decide),
   (C7_settings_roundtrip.2.2 junkDict).2.2.2.2.1 (by decide),
   (C7_settings_roundtrip.2.2 junkDict).2.2.2.2.2.2.2.1 (by decide),
   (C7_settings_roundtrip.2.2 junkDict).2.2.2.2.2.2.2.2.1 (by decide),
   (C7_settings_roundtrip.2.2 junkDict).2.2.2.2.2.2.2.2.2 (by decide)⟩

/-- C8, confirmed.  A tick call made before the current interval has
elapsed since the last applied tick returns the state entirely unchanged,
and so does any tick call while paused or after game over. -/
theorem C8_tick_noop : ∀ (s : EngineState) (now : ℚ) (rand : Nat → Point),
    (now - s.last_update_time < (s.current_speed : ℚ) / 1000 →
      update_game_logic s now rand = s) ∧
    (s.paused = true → update_game_logic s now rand = s) ∧
    (s.game_over = true → update_game_logic s now rand = s) := by
  intro s now rand
  refine ⟨?_, ?_, ?_⟩
  · intro h
    unfold update_game_logic
    split
    · rfl
    · rfl
  · intro h
    unfold update_game_logic
    rw [h]
    simp
  · intro h
    unfold update_game_logic
    rw [h]
    simp

/-- Witness for `C8_tick_noop`: an early call, a paused call and a
game-over call each leave the concrete state unchanged. -/
theorem C8_witness :
    update_game_logic baseState 0 randZero = baseState ∧
    update_game_logic pausedState 1 randZero = pausedState ∧
    update_game_logic overState 1 randZero = overState :=
  ⟨(C8_tick_noop baseState 0 randZero).1 (by decide),
   (C8_tick_noop pausedState 1 randZero).2.1 rfl,
   (C8_tick_noop overState 1 randZero).2.2 rfl⟩

/-- C10, confirmed.  In the settings screen the back action only moves the
application state back to the menu: the in-memory settings record, the
persisted settings store and every other field are untouched, and
`save_settings` (which would update `stored_settings`) is not invoked. -/
theorem C10_settings_back : ∀ s : EngineState,
    handle_settings_navigation s kBack =
      some { s with state := GameState.MENU } := by
  intro s
  rfl

/-- Fields of the engine state that the session-statistics block never
modifies, stated for the state whose tick timestamp was just updated. -/
theorem tick_after_time_fields (s : EngineState) (now : ℚ) :
    (tick_session { s with last_update_time := now } now).snake = s.snake ∧
    (tick_session { s with last_update_time := now } now).food = s.food ∧
    (tick_session { s with last_update_time := now } now).next_direction =
      s.next_direction ∧
    (tick_session { s with last_update_time := now } now).field_width =
      s.field_width ∧
    (tick_session { s with last_update_time := now } now).field_height =
      s.field_height ∧
    (tick_session { s with last_update_time := now } now).score = s.score := by
  unfold tick_session
  dsimp only
  cases s.current_session with
  | none => exact ⟨rfl, rfl, rfl, rfl, rfl, rfl⟩
  | some sess =>
    dsimp only
    split
    · exact ⟨rfl, rfl, rfl, rfl, rfl, rfl⟩
    · exact ⟨rfl, rfl, rfl, rfl, rfl, rfl⟩

/-- On an active, unpaused state whose interval has elapsed, the tick is the
movement phase applied after the session phase and timestamp update. -/
theorem update_game_logic_due (s : EngineState) (now : ℚ) (rand : Nat → Point)
    (hgo : s.game_over = false) (hp : s.paused = false)
    (hdue : (s.current_speed : ℚ) / 1000 ≤ now - s.last_update_time) :
    update_game_logic s now rand =
      tick_move (tick_session { s with last_update_time := now } now) rand := by
  unfold update_game_logic
  rw [hgo, hp]
  rw [if_neg (by simp)]
  rw [if_neg (not_lt.mpr hdue)]

/-- The movement phase always applies the buffered direction. -/
theorem tick_move_direction (s : EngineState) (rand : Nat → Point) :
    (tick_move s rand).direction = s.next_direction := by
  unfold tick_move
  dsimp only
  split
  · rfl
  · split
    · rfl
    · split
      · split
        · rfl
        · rfl
      · rfl

/-- C4, confirmed.  A direction input is rejected (returns false, state
unchanged) exactly when the game is over, paused, or the input is the exact
opposite of the currently applied `direction`; otherwise it is stored as
`next_direction` and accepted.  On the next due tick the applied direction
is always the buffered `next_direction`, so an accepted input takes effect
on the next tick and a rejected opposite input never changes it. -/
theorem C4_direction_input : ∀ (s : EngineState) (d : Direction),
    ((s.game_over = true ∨ s.paused = true ∨ d = opposite s.direction) →
      handle_direction_input s d = (false, s)) ∧
    (s.game_over = false → s.paused = false → d ≠ opposite s.direction →
      handle_direction_input s d = (true, { s with next_direction := d })) ∧
    (∀ (now : ℚ) (rand : Nat → Point), s.game_over = false → s.paused = false →
      (s.current_speed : ℚ) / 1000 ≤ now - s.last_update_time →
      (update_game_logic s now rand).direction = s.next_direction) := by
  intro s d
  refine ⟨?_, ?_, ?_⟩
  · intro h
    unfold handle_direction_input
    split
    · rfl
    · rename_i hpg
      have hd : d = opposite s.direction := by
        rcases h with h | h | h
        · exact absurd (by simp [h]) hpg
        · exact absurd (by simp [h]) hpg
        · exact h
      rw [if_neg (not_not_intro hd)]
  · intro hgo hp hd
    unfold handle_direction_input
    rw [hgo, hp]
    rw [if_neg (by simp)]
    rw [if_pos hd]
  · intro now rand hgo hp hdue
    rw [update_game_logic_due s now rand hgo hp hdue]
    rw [tick_move_direction]
    exact (tick_after_time_fields s now).2.2.1

/-- Witness for `C4_direction_input`: with the applied direction RIGHT, a
LEFT input is rejected unchanged, an UP input is buffered, and the buffered
direction is the one a due tick applies. -/
theorem C4_witness :
    handle_direction_input baseState Direction.LEFT = (false, baseState) ∧
    handle_direction_input baseState Direction.UP =
      (true, { baseState with next_direction := Direction.UP }) ∧
    (update_game_logic baseState 1 randZero).direction =
      baseState.next_direction :=
  ⟨(C4_direction_input baseState Direction.LEFT).1
      (Or.inr (Or.inr (by decide))),
   (C4_direction_input baseState Direction.UP).2.1 rfl rfl (by decide),
   (C4_direction_input baseState Direction.UP).2.2 1 randZero rfl rfl
      (by decide)⟩

/-- When the new head leaves the field, the movement phase only applies the
buffered direction, raises the game-over flag and switches to name input:
in particular the snake is untouched. -/
theorem tick_move_out (s : EngineState) (rand : Nat → Point)
    (hout : ((s.snake.headD (Point.mk 0 0)).add s.next_direction).y < 0 ∨
      s.field_height ≤ ((s.snake.headD (Point.mk 0 0)).add s.next_direction).y ∨
      ((s.snake.headD (Point.mk 0 0)).add s.next_direction).x < 0 ∨
      s.field_width ≤ ((s.snake.headD (Point.mk 0 0)).add s.next_direction).x) :
    tick_move s rand = { s with
      direction := s.next_direction,
      game_over := true,
      state := GameState.NAME_INPUT } := by
  unfold tick_move
  dsimp only
  rw [if_pos hout]

/-- C1, confirmed.  On an active, unpaused state whose tick is due, if the
head translated by the applied (buffered) direction leaves
`[0,height) × [0,width)` in any of the four ways, the tick sets the
game-over flag and leaves the snake body exactly as it was. -/
theorem C1_wall_collision : ∀ (s : EngineState) (now : ℚ) (rand : Nat → Point),
    s.game_over = false → s.paused = false →
    (s.current_speed : ℚ) / 1000 ≤ now - s.last_update_time →
    s.snake ≠ [] →
    (((s.snake.headD (Point.mk 0 0)).add s.next_direction).y < 0 ∨
      s.field_height ≤ ((s.snake.headD (Point.mk 0 0)).add s.next_direction).y ∨
      ((s.snake.headD (Point.mk 0 0)).add s.next_direction).x < 0 ∨
      s.field_width ≤ ((s.snake.headD (Point.mk 0 0)).add s.next_direction).x) →
    (update_game_logic s now rand).game_over = true ∧
    (update_game_logic s now rand).snake = s.snake := by
  intro s now rand hgo hp hdue hne hout
  rw [update_game_logic_due s now rand hgo hp hdue]
  obtain ⟨h1, h2, h3, h4, h5, h6⟩ := tick_after_time_fields s now
  rw [tick_move_out _ rand (by rw [h1, h3, h4, h5]; exact hout)]
  exact ⟨rfl, h1⟩

/-- Witness for `C1_wall_collision`: the snake at the top edge moving UP
dies with its body unchanged. -/
theorem C1_witness :
    (update_game_logic wallState 1 randZero).game_over = true ∧
    (update_game_logic wallState 1 randZero).snake = wallState.snake :=
  C1_wall_collision wallState 1 randZero rfl rfl (by decide) (by decide)
    (by decide)

/-- In the surviving, food-eating branch the movement phase prepends the
head, adds 10 to the score and re-places the food from the stream over the
grown body. -/
theorem tick_move_survive_eat (s : EngineState) (rand : Nat → Point)
    (hin : ¬(((s.snake.headD (Point.mk 0 0)).add s.next_direction).y < 0 ∨
      s.field_height ≤ ((s.snake.headD (Point.mk 0 0)).add s.next_direction).y ∨
      ((s.snake.headD (Point.mk 0 0)).add s.next_direction).x < 0 ∨
      s.field_width ≤ ((s.snake.headD (Point.mk 0 0)).add s.next_direction).x))
    (hnm : (s.snake.headD (Point.mk 0 0)).add s.next_direction ∉ s.snake)
    (hf : (s.snake.headD (Point.mk 0 0)).add s.next_direction = s.food) :
    (tick_move s rand).snake =
      (s.snake.headD (Point.mk 0 0)).add s.next_direction :: s.snake ∧
    (tick_move s rand).score = s.score + 10 ∧
    (tick_move s rand).food =
      place_food ((s.snake.headD (Point.mk 0 0)).add s.next_direction :: s.snake)
        s.food rand := by
  unfold tick_move
  dsimp only
  rw [if_neg hin, if_neg hnm, if_pos hf]
  split
  · exact ⟨rfl, rfl, rfl⟩
  · exact ⟨rfl, rfl, rfl⟩

/-- In the surviving, non-eating branch the movement phase prepends the head
and drops the tail, leaving score and food alone. -/
theorem tick_move_survive_noeat (s : EngineState) (rand : Nat → Point)
    (hin : ¬(((s.snake.headD (Point.mk 0 0)).add s.next_direction).y < 0 ∨
      s.field_height ≤ ((s.snake.headD (Point.mk 0 0)).add s.next_direction).y ∨
      ((s.snake.headD (Point.mk 0 0)).add s.next_direction).x < 0 ∨
      s.field_width ≤ ((s.snake.headD (Point.mk 0 0)).add s.next_direction).x))
    (hnm : (s.snake.headD (Point.mk 0 0)).add s.next_direction ∉ s.snake)
    (hf : (s.snake.headD (Point.mk 0 0)).add s.next_direction ≠ s.food) :
    (tick_move s rand).snake =
      ((s.snake.headD (Point.mk 0 0)).add s.next_direction :: s.snake).dropLast ∧
    (tick_move s rand).score = s.score := by
  unfold tick_move
  dsimp only
  rw [if_neg hin, if_neg hnm, if_neg hf]
  exact ⟨rfl, rfl⟩

/-- C3, corrected.  On an active, unpaused, due tick whose new head stays in
bounds and does not collide with the pre-move body: reaching the food cell
grows the snake by exactly one and the score by exactly ten, while missing
it leaves the length and the score unchanged.  The claim's food branch
holds only under the no-collision proviso: when the food lies on a body
cell the tick ends the game without growing (see `C3_cex`). -/
theorem C3_growth_law : ∀ (s : EngineState) (now : ℚ) (rand : Nat → Point),
    s.game_over = false → s.paused = false →
    (s.current_speed : ℚ) / 1000 ≤ now - s.last_update_time →
    s.snake ≠ [] →
    ¬(((s.snake.headD (Point.mk 0 0)).add s.next_direction).y < 0 ∨
      s.field_height ≤ ((s.snake.headD (Point.mk 0 0)).add s.next_direction).y ∨
      ((s.snake.headD (Point.mk 0 0)).add s.next_direction).x < 0 ∨
      s.field_width ≤ ((s.snake.headD (Point.mk 0 0)).add s.next_direction).x) →
    (s.snake.headD (Point.mk 0 0)).add s.next_direction ∉ s.snake →
    (((s.snake.headD (Point.mk 0 0)).add s.next_direction = s.food →
      (update_game_logic s now rand).snake.length = s.snake.length + 1 ∧
      (update_game_logic s now rand).score = s.score + 10) ∧
     ((s.snake.headD (Point.mk 0 0)).add s.next_direction ≠ s.food →
      (update_game_logic s now rand).snake.length = s.snake.length ∧
      (update_game_logic s now rand).score = s.score)) := by
  intro s now rand hgo hp hdue hne hin hnm
  rw [update_game_logic_due s now rand hgo hp hdue]
  obtain ⟨h1, h2, h3, h4, h5, h6⟩ := tick_after_time_fields s now
  constructor
  · intro hf
    obtain ⟨hs, hsc, _⟩ := tick_move_survive_eat
      (tick_session { s with last_update_time := now } now) rand
      (by rw [h1, h3, h4, h5]; exact hin)
      (by rw [h1, h3]; exact hnm)
      (by rw [h1, h2, h3]; exact hf)
    constructor
    · rw [hs, h1]
      simp
    · rw [hsc, h6]
  · intro hf
    obtain ⟨hs, hsc⟩ := tick_move_survive_noeat
      (tick_session { s with last_update_time := now } now) rand
      (by rw [h1, h3, h4, h5]; exact hin)
      (by rw [h1, h3]; exact hnm)
      (by rw [h1, h2, h3]; exact hf)
    constructor
    · rw [hs, h1, h3]
      rcases List.exists_cons_of_ne_nil hne with ⟨a, l, hal⟩
      rw [hal]
      simp
    · rw [hsc, h6]

/-- C3 counterexample: in `foodOnBodyState` the tick is due, the game is
active, and the new head `(1,0)` equals the food cell — but `(1,0)` is also
a body cell, so the tick ends the game with the length and score unchanged
instead of growing the snake and adding 10. -/
theorem C3_cex :
    (foodOnBodyState.game_over = false ∧ foodOnBodyState.paused = false ∧
     (foodOnBodyState.current_speed : ℚ) / 1000 ≤
       1 - foodOnBodyState.last_update_time ∧
     (foodOnBodyState.snake.headD (Point.mk 0 0)).add
       foodOnBodyState.next_direction = foodOnBodyState.food) ∧
    ¬((update_game_logic foodOnBodyState 1 randThree).snake.length =
        foodOnBodyState.snake.length + 1 ∧
      (update_game_logic foodOnBodyState 1 randThree).score =
        foodOnBodyState.score + 10) := by
  decide

/-- Witness for `C3_growth_law`: one due tick into the food cell grows the
concrete snake from 3 to 4 and the score to 10, and the same tick away from
the food keeps length 3 and score 0. -/
theorem C3_witness :
    ((update_game_logic eatState 1 randZero).snake.length =
        eatState.snake.length + 1 ∧
      (update_game_logic eatState 1 randZero).score = eatState.score + 10) ∧
    ((update_game_logic baseState 1 randZero).snake.length =
        baseState.snake.length ∧
      (update_game_logic baseState 1 randZero).score = baseState.score) :=
  ⟨(C3_growth_law eatState 1 randZero rfl rfl (by decide) (by decide)
      (by decide) (by decide)).1 (by decide),
   (C3_growth_law baseState 1 randZero rfl rfl (by decide) (by decide)
      (by decide) (by decide)).2 (by decide)⟩

/-- The movement phase preserves distinctness of the snake cells: the
self-collision check against the pre-move body guarantees the prepended
head is fresh, and dropping the tail only shrinks the list. -/
theorem tick_move_nodup (s : EngineState) (rand : Nat → Point)
    (h : s.snake.Nodup) : (tick_move s rand).snake.Nodup := by
  unfold tick_move
  dsimp only
  split
  · exact h
  · split
    · exact h
    · rename_i hnm
      have hcons :
          ((s.snake.headD (Point.mk 0 0)).add s.next_direction :: s.snake).Nodup :=
        List.nodup_cons.mpr ⟨hnm, h⟩
      split
      · split
        · exact hcons
        · exact hcons
      · exact List.Nodup.sublist (List.dropLast_sublist _) hcons

/-- C5, confirmed.  Resetting the game always produces a snake with
pairwise-distinct cells, and a tick from any state with pairwise-distinct
snake cells produces a state with pairwise-distinct snake cells. -/
theorem C5_distinct_invariant :
    (∀ (s : EngineState) (now : ℚ) (rand : Nat → Point) (s2 : EngineState),
      reset_game s now rand = some s2 → s2.snake.Nodup) ∧
    (∀ (s : EngineState) (now : ℚ) (rand : Nat → Point),
      s.snake.Nodup → (update_game_logic s now rand).snake.Nodup) := by
  constructor
  · intro s now rand s2 h
    unfold reset_game at h
    cases hl : List.lookup s.settings.field_size FIELD_SIZES with
    | none =>
      rw [hl] at h
      cases h
    | some fi =>
      rw [hl] at h
      dsimp only at h
      have h2 := Option.some.inj h
      subst h2
      dsimp only
      refine List.nodup_cons.mpr ⟨?_, List.nodup_cons.mpr ⟨?_, List.nodup_singleton _⟩⟩
      · intro hm
        rcases List.mem_cons.mp hm with he | hm2
        · rw [Point.mk.injEq] at he
          omega
        · rw [List.mem_singleton] at hm2
          rw [Point.mk.injEq] at hm2
          omega
      · intro hm
        rw [List.mem_singleton] at hm
        rw [Point.mk.injEq] at hm
        omega
  · intro s now rand h
    unfold update_game_logic
    split
    · exact h
    · split
      · exact h
      · apply tick_move_nodup
        rw [(tick_after_time_fields s now).1]
        exact h

/-- Witness for `C5_distinct_invariant`: the concrete reset state and a
concrete tick both have pairwise-distinct snakes. -/
theorem C5_witness :
    resetSmall.snake.Nodup ∧
    (update_game_logic baseState 1 randZero).snake.Nodup :=
  ⟨C5_distinct_invariant.1 smallState 0 randZero resetSmall (by decide),
   C5_distinct_invariant.2 baseState 1 randZero (by decide)⟩

/-- C9, confirmed.  With the Small 15×10 preset selected, a reset spawns the
snake `[(5,7),(5,6),(5,5)]` facing RIGHT; forcing the food to `(5,8)` and
running one due tick moves the head onto `(5,8)`, sets the score to 10 and
the length to 4, and — provided the candidate stream offers any free cell
within its 100 attempts — places the new food off the snake. -/
theorem C9_small_scenario : ∀ (s : EngineState) (now : ℚ) (rand : Nat → Point)
    (s2 : EngineState),
    s.settings.field_size = kSmall →
    reset_game s now rand = some s2 →
    s2.snake = [Point.mk 5 7, Point.mk 5 6, Point.mk 5 5] ∧
    s2.direction = Direction.RIGHT ∧
    (∀ (now2 : ℚ) (rand2 : Nat → Point),
      (s2.current_speed : ℚ) / 1000 ≤ now2 - s2.last_update_time →
      (∃ i, i < 100 ∧ rand2 i ∉ Point.mk 5 8 :: s2.snake) →
      (update_game_logic { s2 with food := Point.mk 5 8 } now2 rand2).snake =
        Point.mk 5 8 :: s2.snake ∧
      (update_game_logic { s2 with food := Point.mk 5 8 } now2 rand2).score = 10 ∧
      (update_game_logic { s2 with food := Point.mk 5 8 } now2 rand2).snake.length = 4 ∧
      (update_game_logic { s2 with food := Point.mk 5 8 } now2 rand2).food ∉
        (update_game_logic { s2 with food := Point.mk 5 8 } now2 rand2).snake) := by
  intro s now rand s2 hfs h
  unfold reset_game at h
  rw [hfs] at h
  rw [show List.lookup kSmall FIELD_SIZES =
    some (FieldSize.mk kSmall 15 10) from rfl] at h
  dsimp only at h
  have e := (Option.some.inj h).symm
  have hsn : s2.snake = [Point.mk 5 7, Point.mk 5 6, Point.mk 5 5] := by
    rw [e]
    dsimp only
    decide
  have hnd : s2.next_direction = Direction.RIGHT := by rw [e]
  have hdir : s2.direction = Direction.RIGHT := by rw [e]
  have hgo : s2.game_over = false := by rw [e]
  have hp : s2.paused = false := by rw [e]
  have hfh : s2.field_height = 10 := by rw [e]
  have hfw : s2.field_width = 15 := by rw [e]
  have hscr : s2.score = 0 := by rw [e]
  refine ⟨hsn, hdir, ?_⟩
  intro now2 rand2 hdue hfree
  rw [update_game_logic_due { s2 with food := Point.mk 5 8 } now2 rand2 hgo hp
    hdue]
  obtain ⟨h1, h2, h3, h4, h5, h6⟩ :=
    tick_after_time_fields { s2 with food := Point.mk 5 8 } now2
  obtain ⟨hs, hsc, hfd⟩ := tick_move_survive_eat
    (tick_session { { s2 with food := Point.mk 5 8 } with
      last_update_time := now2 } now2) rand2
    (by rw [h1, h3, h4, h5]; dsimp only; rw [hsn, hnd, hfh, hfw]; decide)
    (by rw [h1, h3]; dsimp only; rw [hsn, hnd]; decide)
    (by rw [h1, h2, h3]; dsimp only; rw [hsn, hnd]; decide)
  refine ⟨?_, ?_, ?_, ?_⟩
  · rw [hs, h1, h3]
    dsimp only
    rw [hsn, hnd]
    decide
  · rw [hsc, h6]
    dsimp only
    rw [hscr]
    decide
  · rw [hs, h1, h3]
    dsimp only
    rw [hsn, hnd]
    decide
  · rw [hfd, hs]
    apply place_food_free
    obtain ⟨i, hi, hmem⟩ := hfree
    rw [hsn] at hmem
    refine ⟨i, hi, ?_⟩
    rw [h1, h3]
    dsimp only
    rw [hsn, hnd]
    exact hmem

/-- Witness for `C9_small_scenario` at the concrete reset state, tick time 1
and the all-zero candidate stream. -/
theorem C9_witness :
    (update_game_logic { resetSmall with food := Point.mk 5 8 } 1 randZero).score = 10 ∧
    (update_game_logic { resetSmall with food := Point.mk 5 8 } 1 randZero).snake.length = 4 ∧
    (update_game_logic { resetSmall with food := Point.mk 5 8 } 1 randZero).food ∉
      (update_game_logic { resetSmall with food := Point.mk 5 8 } 1 randZero).snake := by
  have h := C9_small_scenario smallState 0 randZero resetSmall rfl (by decide)
  have h2 := h.2.2 1 randZero (by decide) ⟨0, by decide, by decide⟩
  exact ⟨h2.2.1, h2.2.2.1, h2.2.2.2⟩

end SnakeGame
